import Mathlib

/- Shallow embedding of the CarePathIQ clinical pathway builder
   (streamlit_app.py, carepathiq_app.py, clinical_pathway_agent.py).

   String helpers of the Python standard library (lower, strip, replace,
   split, isdigit, int) are modelled character-wise over String.data, so
   that every definition evaluates inside the kernel. Network fetches and
   calls to the hosted text-generation service are modelled as oracle
   parameters of type Except String _, mirroring the try/except structure
   of the source: ok carries the value the try block computes, error
   carries the rendered message of a raised exception. -/

namespace CarePathIQ

/-- True when the first character list is an initial segment of the second. -/
def beginsWith : List Char → List Char → Bool
  | [], _ => true
  | _ :: _, [] => false
  | p :: ps, c :: cs => p == c && beginsWith ps cs

/-- True when pat occurs as a contiguous run inside the second character list. -/
def occursIn (pat : List Char) : List Char → Bool
  | [] => beginsWith pat []
  | c :: cs => beginsWith pat (c :: cs) || occursIn pat cs

/-- Case-insensitive substring test with ASCII case folding. -/
def strOccursCI (s pat : String) : Bool :=
  occursIn (pat.data.map Char.toLower) (s.data.map Char.toLower)

/-- Python str.lower, modelled as ASCII character-wise lowering. -/
def pyLower (s : String) : String := String.mk (s.data.map Char.toLower)

/-- Whitespace characters recognised by Python str.strip. -/
def isPySpace (c : Char) : Bool :=
  c == ' ' || c == '\t' || c == '\n' || c == '\r' || c == '\x0b' || c == '\x0c'

/-- Python str.strip with no argument: drop leading and trailing whitespace. -/
def pyStrip (s : String) : String :=
  String.mk (((s.data.dropWhile isPySpace).reverse.dropWhile isPySpace).reverse)

/-- Fuel-indexed scan performing left-to-right, non-overlapping replacement. -/
def replaceFuel (pat new : List Char) : Nat → List Char → List Char
  | _, [] => []
  | 0, l => l
  | fuel + 1, c :: cs =>
    if !pat.isEmpty && beginsWith pat (c :: cs) then
      new ++ replaceFuel pat new fuel ((c :: cs).drop pat.length)
    else
      c :: replaceFuel pat new fuel cs

/-- Python str.replace: replace every non-overlapping occurrence, scanning left to right. -/
def pyReplace (s old new : String) : String :=
  String.mk (replaceFuel old.data new.data s.data.length s.data)

/-- Split a character list at every occurrence of the separator character. -/
def splitOnChar (sep : Char) : List Char → List (List Char)
  | [] => [[]]
  | c :: cs =>
    if c == sep then [] :: splitOnChar sep cs
    else
      match splitOnChar sep cs with
      | r :: rs => (c :: r) :: rs
      | [] => [[c]]

/-- Python str.split with a comma separator. -/
def pySplitComma (s : String) : List String :=
  (splitOnChar ',' s.data).map String.mk

/-- Join strings with a comma-space separator. -/
def joinCommaSpace : List String → String
  | [] => ""
  | x :: xs => xs.foldl (fun acc y => acc ++ ", " ++ y) x

/-- Python repr of a dict with string keys and values, as an f-string renders it. -/
def pyStrDictRepr (d : List (String × String)) : String :=
  "\x7b" ++ joinCommaSpace (d.map (fun kv => "\x27" ++ kv.1 ++ "\x27: \x27" ++ kv.2 ++ "\x27")) ++ "\x7d"

/-- Python repr of a list of strings, as an f-string renders it. -/
def pyListReprStr (l : List String) : String :=
  "[" ++ joinCommaSpace (l.map (fun s => "\x27" ++ s ++ "\x27")) ++ "]"

/-- Python str.isdigit restricted to ASCII digit characters. -/
def pyIsDigit (s : String) : Bool := !s.data.isEmpty && s.data.all Char.isDigit

/-- Numeric value of a decimal digit string, as Python int computes it. -/
def pyStrToNat (s : String) : Nat := s.data.foldl (fun n c => 10 * n + (c.toNat - 48)) 0

/-- Evidence Item as the web variants store it: keys point, citation, verification. -/
structure EvidenceItem where
  point : String
  citation : String
  verification : String
deriving DecidableEq, Repr

/-- Normalized (trimmed, case-folded) form of a decision-point name, in the words of the spec. -/
def normalizedPoint (s : String) : String := pyLower (pyStrip s)

/-- Spec invariant: decision-point names of the evidence list are pairwise distinct
in normalized form. -/
def evidenceNormNodup (ev : List EvidenceItem) : Prop :=
  (ev.map (fun e => normalizedPoint e.point)).Nodup

instance (ev : List EvidenceItem) : Decidable (evidenceNormNodup ev) := by
  unfold evidenceNormNodup
  infer_instance

/-- Tab 2 "Search PubMed & Verify" of both web variants: the built evidence entry is
appended to the evidence list unconditionally
(st.session_state.pathway_data["evidence"].append(entry)). -/
def append_evidence_entry (ev : List EvidenceItem) (entry : EvidenceItem) : List EvidenceItem :=
  ev ++ [entry]

/-- Node-name parsing of save_answer_to_pathway in streamlit_app.py: semicolons become
commas, split on commas, strip each part, drop blanks. -/
def parse_nodes (answer : String) : List String :=
  ((pySplitComma (pyReplace answer ";" ",")).map pyStrip).filter (fun n => n != "")

/-- Per-node step of save_answer_to_pathway: append a fresh item for the node unless
some existing item has the exact same point string, in which case nothing changes. -/
def add_node_if_new (acc : List EvidenceItem) (n : String) : List EvidenceItem :=
  if acc.any (fun e => e.point == n) then acc
  else acc ++ [{ point := n, citation := "", verification := "" }]

/-- save_answer_to_pathway of streamlit_app.py for the evidence.nodes key. -/
def save_answer_nodes (ev : List EvidenceItem) (answer : String) : List EvidenceItem :=
  (parse_nodes answer).foldl add_node_if_new ev

/-- search_pubmed of the web variants. The network fetch and JSON parsing of the try
block are the oracle argument: ok citations is the citation list the try block computes
(empty when esearch found no identifiers), error e is a raised exception with rendered
message e. The except branch returns the one-element diagnostic list. -/
def search_pubmed (fetch : Except String (List String)) : List String :=
  match fetch with
  | .ok citations => citations
  | .error e => ["Error fetching PubMed data: " ++ e]

/-- One element of auto_run_phase_2 in streamlit_app.py: a first hit becomes the
citation with verification Auto-imported; zero hits record the MANUAL_REQUIRED
placeholder with an empty verification. -/
def auto_phase2_item (point : String) (results : List String) : EvidenceItem :=
  match results with
  | chosen :: _ => { point := point, citation := chosen, verification := "Auto-imported" }
  | [] => { point := point, citation := "MANUAL_REQUIRED", verification := "" }

/-- propose_structure_from_scope: the five fixed (type, name) elements derived from
the condition. -/
def propose_structure_from_scope (condition : String) : List (String × String) :=
  [("Start Node", "Patient presents with " ++ condition),
   ("Decision Node", "Risk Stratification / Severity Assessment"),
   ("Note", "Clinical Risk Score Details (e.g., Calculator)"),
   ("Process Step", "Initial Medical Management"),
   ("End Node", "Disposition (Admit vs. Discharge)")]

/-- auto_run_phase_2 of streamlit_app.py: for every proposed element, query PubMed with
the built query and extend the evidence list with the resulting items. The search
oracle maps a query string to the returned citation list. -/
def auto_run_phase_2 (ev : List EvidenceItem) (condition : String)
    (search : String → List String) : List EvidenceItem :=
  ev ++ (propose_structure_from_scope condition).map (fun item =>
    auto_phase2_item item.2
      (search ("(" ++ condition ++ ") AND (" ++ item.2
        ++ ") AND (Guideline[pt] OR Systematic Review[pt])")))

/-- ask_assistant of the web variants: with no configured client the fixed string is
returned and the oracle is not consulted; with a client, a successful call returns the
extracted content and a raised exception e yields the diagnostic string. -/
def ask_assistant (hasClient : Bool) (prompt context : String)
    (callResult : Except String String) : String :=
  if !hasClient then "Analysis unavailable (No Key)"
  else
    let _full := context ++ "\n\nTask: " ++ prompt
    match callResult with
    | .ok content => content
    | .error e => "LLM error: " ++ e

/-- Code-fence stripping applied by generate_mermaid and draft_flowchart. -/
def strip_fences (s : String) : String :=
  pyStrip (pyReplace (pyReplace s "```mermaid" "") "```" "")

/-- generate_mermaid of the web variants. -/
def generate_mermaid (hasClient : Bool) (entry : String) (nodes : List String)
    (exitPoint : String) (callResult : Except String String) : String :=
  if !hasClient then "graph TD; A[No LLM]-->B[Manual]"
  else
    strip_fences (ask_assistant hasClient
      ("Create a Mermaid.js flowchart (graph TD) for Entry: " ++ entry ++ " Nodes: "
        ++ pyListReprStr nodes ++ " Exit: " ++ exitPoint ++ ". Output only raw graph TD code.")
      "You are a clinical pathway visual designer." callResult)

/-- Pathway record fields read by the tab 5 report compiler of the web variants. The
record is created with every section empty, the evidence key holding a list and the
mermaid key holding the empty string. -/
structure WebPathwayData where
  scope_condition : Option String
  scope_problem : Option String
  evidence : List EvidenceItem
  mermaid : String
  testing : List (String × String)
deriving DecidableEq, Repr

/-- Entirely empty pathway record, as initialised at session start. -/
def emptyPathwayData : WebPathwayData :=
  { scope_condition := none, scope_problem := none, evidence := [], mermaid := "", testing := [] }

/-- Compile Final Report of tab 5 in both web variants: title, charter, evidence table,
diagram block, testing notes. -/
def compile_final_report (data : WebPathwayData) : String :=
  "# Clinical Pathway: " ++ data.scope_condition.getD "Draft" ++ "\n\n"
    ++ "## 1. Project Charter\n" ++ data.scope_problem.getD "" ++ "\n\n"
    ++ "## 2. Evidence Appraisal\n| Decision | Citation | Verification |\n|---|---|---|\n"
    ++ String.join (data.evidence.map (fun e =>
        "| " ++ e.point ++ " | " ++ e.citation ++ " | " ++ e.verification ++ " |\n"))
    ++ "\n## 3. Visual Logic\n```mermaid\n" ++ data.mermaid ++ "\n```\n"
    ++ "\n## 4. User Testing\n" ++ pyStrDictRepr data.testing ++ "\n"

/-- Compiling the report reads the record and leaves it unchanged: the compile step
returns the document next to the record it was given. -/
def compile_final_report_step (data : WebPathwayData) : String × WebPathwayData :=
  (compile_final_report data, data)

/-- Evidence bank entry of the command-line agent: keys id, decision_point, analysis. -/
structure Study where
  id : String
  decision_point : String
  analysis : String
deriving DecidableEq, Repr

/-- Logic node of the command-line agent: keys node, evidence_link. -/
structure LogicNode where
  node : String
  evidence_link : String
deriving DecidableEq, Repr

/-- Pathway data fields read by the summary formatter of clinical_pathway_agent.py.
A dictionary key that was never written is Option none and renders as None inside an
f-string. -/
structure CLIPathwayData where
  scope_condition : Option String
  scope_problem : Option String
  scope_population : Option String
  scope_objectives : Option String
  studies : List Study
  mermaid_visual : Option String
  logic_nodes : List LogicNode
  testing_status : Option String
  testing_issues : Option String
  ops_ehr : Option String
  ops_metrics : Option String
deriving DecidableEq, Repr

/-- Rendering of a possibly missing dictionary value inside a Python f-string. -/
def pyOptStr (o : Option String) : String := o.getD "None"

/-- Summary formatter of clinical_pathway_agent.py (the executed class copy). The
title argument of the source method is never used by its body and is omitted here. -/
def format_summary (d : CLIPathwayData) (phase_key : String) : String :=
  if phase_key == "scope" then
    "\n## SCOPE: " ++ pyOptStr d.scope_condition ++ "\n**Problem:** " ++ pyOptStr d.scope_problem
      ++ "\n**Pop:** " ++ pyOptStr d.scope_population
      ++ "\n**Obj:** " ++ pyOptStr d.scope_objectives ++ "\n"
  else if phase_key == "evidence" then
    "\n### Rapid Evidence Appraisal\n| Decision | Citation | Analysis |\n|---|---|---|\n"
      ++ String.join (d.studies.map (fun s =>
          "| " ++ s.decision_point ++ " | " ++ s.id ++ " | " ++ s.analysis ++ " |\n"))
  else if phase_key == "logic" then
    "\n### Logic Flowchart\n```mermaid\n" ++ pyOptStr d.mermaid_visual ++ "\n```\n\n**Nodes:**\n"
      ++ String.join (d.logic_nodes.map (fun n =>
          "- " ++ n.node ++ " (Ref: " ++ n.evidence_link ++ ")\n"))
  else if phase_key == "testing" then
    "\n**Testing:** " ++ pyOptStr d.testing_status
      ++ "\n**Issues:** " ++ pyOptStr d.testing_issues ++ "\n"
  else if phase_key == "operations" then
    "\n**EHR:** " ++ pyOptStr d.ops_ehr ++ "\n**KPIs:** " ++ pyOptStr d.ops_metrics ++ "\n"
  else ""

/-- In-memory pathway data plus the persisted report document of one CLI session. -/
structure CLIState where
  data : CLIPathwayData
  report : String
deriving DecidableEq, Repr

/-- Approval signal of the review step: the typed response, lowered and stripped,
equals yes (the prompt reads: Type YES to proceed, anything else to abort). -/
def approves (response : String) : Bool := pyStrip (pyLower response) == "yes"

/-- Separator line of forty dashes appended after each approved subsection. -/
def dashSep : String := String.mk (List.replicate 40 '-')

/-- review_and_save of clinical_pathway_agent.py: render the summary for the phase,
and append it followed by the separator line to the persisted report exactly when the
response approves; the in-memory pathway data is only read, never written. -/
def review_and_save (st : CLIState) (phase_key response : String) : CLIState × Bool :=
  let summary_text := format_summary st.data phase_key
  if approves response then
    ({ st with report := st.report ++ summary_text ++ "\n" ++ dashSep ++ "\n" }, true)
  else (st, false)

/-- Citation selection of CLI phase 2 (both phase_2_evidence and
phase_2_evidence_appraisal): a digit string naming an index from one up to the number
of results selects that result; every other input is recorded verbatim. -/
def cli_select_citation (results : List String) (sel : String) : String :=
  if pyIsDigit sel ∧ 1 ≤ pyStrToNat sel ∧ pyStrToNat sel ≤ results.length then
    results.getD (pyStrToNat sel - 1) "No citation"
  else sel

/-- One decision point of CLI phase_2_evidence: with hits the selection rule applies;
with zero hits the manually typed citation is recorded. The assistant analysis, an
oracle value, is stored alongside in either case. -/
def cli_phase2_item (point : String) (results : List String)
    (sel manualInput analysis : String) : Study :=
  let selected_cite := if results.isEmpty then manualInput else cli_select_citation results sel
  { id := selected_cite, decision_point := point, analysis := analysis }

/-- ask_assistant of clinical_pathway_agent.py: the fixed unavailable string with no
client; with a client, the stripped response content on success and a fixed apology on
any raised exception. -/
def cli_ask_assistant (hasClient : Bool) (prompt context : String)
    (callResult : Except String String) : String :=
  if !hasClient then "Analysis unavailable (No Key)"
  else
    let _full := context ++ "\n\nTask: " ++ prompt
    match callResult with
    | .ok content => pyStrip content
    | .error _ => "I couldn\x27t process that right now."

/-- draft_flowchart of clinical_pathway_agent.py: ask the assistant for a diagram over
the logic fields and strip code fences from whatever comes back. -/
def draft_flowchart (hasClient : Bool) (entry nodes endpoints : String)
    (callResult : Except String String) : String :=
  strip_fences (cli_ask_assistant hasClient
    ("Create a Mermaid.js flowchart (graph TD) for: Entry: " ++ entry ++ " Nodes: "
      ++ nodes ++ " Exit: " ++ endpoints ++ " Output ONLY the raw code inside the mermaid block.")
    "You are a Clinical Systems Architect." callResult)

/-- Validation status derivation of phase_4_user_testing in clinical_pathway_agent.py:
the lowered feedback is compared against the string no. -/
def phase_4_status (feedback : String) : String :=
  if pyLower feedback = "no" then "Ready for Go-Live"
  else "Requires Redesign (Too much friction)"

/-- Helper: the per-node step of the guided conversation preserves exact distinctness
of the point strings. -/
theorem add_node_if_new_nodup (acc : List EvidenceItem) (n : String)
    (h : (acc.map (fun e => e.point)).Nodup) :
    ((add_node_if_new acc n).map (fun e => e.point)).Nodup := by
  unfold add_node_if_new
  by_cases hc : acc.any (fun e => e.point == n) = true
  · rw [if_pos hc]
    exact h
  · rw [if_neg hc, List.map_append]
    refine List.Nodup.append h (List.nodup_singleton n) ?_
    intro a ha hb
    simp only [List.map_cons, List.map_nil, List.mem_singleton] at hb
    subst hb
    rcases List.mem_map.mp ha with ⟨e, he, hpt⟩
    exact hc (List.any_eq_true.mpr ⟨e, he, by simp [hpt]⟩)

/-- Helper: folding the guided-conversation step over any node list preserves exact
distinctness of the point strings. -/
theorem foldl_add_nodes_nodup (nodes : List String) (ev : List EvidenceItem)
    (h : (ev.map (fun e => e.point)).Nodup) :
    ((nodes.foldl add_node_if_new ev).map (fun e => e.point)).Nodup := by
  induction nodes generalizing ev with
  | nil => exact h
  | cons n ns ih =>
    simp only [List.foldl_cons]
    exact ih (add_node_if_new ev n) (add_node_if_new_nodup ev n h)

/-- C1 counterexample: the operations that add evidence do not keep decision-point
names distinct. Pressing Search PubMed and Verify twice with the node Sepsis Risk
appends two items with the identical point string, so the normalized names of the
resulting (reachable) record are not pairwise distinct; and the guided-conversation
path compares points exactly, so entering Sepsis Risk when sepsis risk is already
present appends a second entry whose normalized name duplicates the existing one. -/
theorem c1_counterexample :
    (¬ evidenceNormNodup (append_evidence_entry (append_evidence_entry []
        { point := "Sepsis Risk", citation := "cite A", verification := "Verified" })
        { point := "Sepsis Risk", citation := "cite B", verification := "Warning" }))
    ∧ save_answer_nodes [{ point := "sepsis risk", citation := "", verification := "" }]
        "Sepsis Risk"
        = [{ point := "sepsis risk", citation := "", verification := "" },
           { point := "Sepsis Risk", citation := "", verification := "" }]
    ∧ ¬ evidenceNormNodup (save_answer_nodes
        [{ point := "sepsis risk", citation := "", verification := "" }] "Sepsis Risk") := by
  exact ⟨by decide, by decide, by decide⟩

/-- C1 (corrected): only the guided-conversation node-entry path deduplicates, and it
does so by skipping a node whose exact point string already occurs (the comparison is
neither trimmed nor case-folded, and the existing item is not augmented or
overwritten); it therefore preserves exact distinctness of point strings. The
interactive search-and-select path appends its entry unconditionally, so records with
duplicate decision-point names are reachable. -/
theorem c1_amended :
    (∀ (ev : List EvidenceItem) (answer : String),
        (ev.map (fun e => e.point)).Nodup →
        ((save_answer_nodes ev answer).map (fun e => e.point)).Nodup)
    ∧ ∀ (ev : List EvidenceItem) (entry : EvidenceItem),
        append_evidence_entry ev entry = ev ++ [entry] := by
  refine ⟨?_, fun ev entry => rfl⟩
  intro ev answer h
  exact foldl_add_nodes_nodup (parse_nodes answer) ev h

/-- C1 witness: the guided path applied to a concrete record with one item keeps the
point strings distinct. -/
theorem c1_witness :
    ((save_answer_nodes [{ point := "Sepsis Risk", citation := "c", verification := "v" }]
        "Sepsis Risk, Imaging").map (fun e => e.point)).Nodup :=
  c1_amended.1 [{ point := "Sepsis Risk", citation := "c", verification := "v" }]
    "Sepsis Risk, Imaging" (by decide)

/-- C2: for every phase key and every response, the review step appends the rendered
summary followed by the forty-dash separator line to the persisted report exactly when
the response approves (lowered and stripped it equals yes); otherwise the report is
unchanged, and the in-memory pathway data is unchanged by the review step in both
cases. -/
theorem c2 : ∀ (st : CLIState) (phase_key response : String),
    (review_and_save st phase_key response).1.data = st.data
    ∧ (review_and_save st phase_key response).1.report =
        (if approves response then
          st.report ++ format_summary st.data phase_key ++ "\n" ++ dashSep ++ "\n"
        else st.report)
    ∧ ((review_and_save st phase_key response).2 = true ↔ approves response = true) := by
  intro st pk r
  unfold review_and_save
  by_cases h : approves r = true
  · simp [h]
  · simp [h]

/-- C3 counterexample: the compiled report of an entirely empty record contains no
case-insensitive occurrence of the phrase not specified and none of the word empty, so
it does not carry explicit placeholder text for every section. -/
theorem c3_counterexample :
    strOccursCI (compile_final_report emptyPathwayData) "not specified" = false
    ∧ strOccursCI (compile_final_report emptyPathwayData) "empty" = false := by
  exact ⟨by decide, by decide⟩

/-- C3 (corrected): compiling from an entirely empty record is total and never raises,
and the exact document it yields falls back to Draft in the title while rendering the
other sections as empty content: an empty charter line, a header-only evidence table,
an empty mermaid block, and an empty dict rendering for testing, with no explicit
not-specified or empty placeholder text. -/
theorem c3_amended :
    compile_final_report emptyPathwayData =
      "# Clinical Pathway: Draft\n\n## 1. Project Charter\n\n\n## 2. Evidence Appraisal\n| Decision | Citation | Verification |\n|---|---|---|\n\n## 3. Visual Logic\n```mermaid\n\n```\n\n## 4. User Testing\n\x7b\x7d\n" := by
  rfl

/-- C4: report compilation is a pure function of the record: the compile step leaves
the record unchanged, and compiling again from the record left by the first compile
yields byte-identical output. -/
theorem c4 : ∀ data : WebPathwayData,
    (compile_final_report_step (compile_final_report_step data).2).1
      = (compile_final_report_step data).1
    ∧ (compile_final_report_step data).2 = data :=
  fun _ => ⟨rfl, rfl⟩

/-- C5 counterexample: in CLI phase 2, a zero-hit search records the manually typed
citation verbatim, not the MANUAL_REQUIRED literal, and stores the assistant analysis
(here the no-key marker), which is not an empty note. -/
theorem c5_counterexample :
    (cli_phase2_item "Risk Stratification" [] "1"
        "Smith J et al. (2020). Sepsis care. Journal." "Analysis unavailable (No Key)").id
      ≠ "MANUAL_REQUIRED"
    ∧ (cli_phase2_item "Risk Stratification" [] "1"
        "Smith J et al. (2020). Sepsis care. Journal." "Analysis unavailable (No Key)").analysis
      ≠ "" := by
  exact ⟨by decide, by decide⟩

/-- C5 (corrected): the MANUAL_REQUIRED-with-empty-note behaviour belongs to the
automated phase-2 run of the web variants: there a zero-hit search records exactly the
item with citation MANUAL_REQUIRED and empty verification, and a run whose every
search returns zero hits extends the evidence list with one such item per proposed
element. The interactive CLI phase 2 instead prompts for a manual citation on zero
hits and records the typed text verbatim together with the assistant analysis. -/
theorem c5_amended : ∀ (point condition sel manualInput analysis : String)
    (ev : List EvidenceItem),
    auto_phase2_item point []
        = { point := point, citation := "MANUAL_REQUIRED", verification := "" }
    ∧ cli_phase2_item point [] sel manualInput analysis
        = { id := manualInput, decision_point := point, analysis := analysis }
    ∧ auto_run_phase_2 ev condition (fun _ => [])
        = ev ++ (propose_structure_from_scope condition).map (fun item =>
            { point := item.2, citation := "MANUAL_REQUIRED", verification := "" }) := by
  intros
  exact ⟨rfl, rfl, rfl⟩

/-- C6 counterexample: with a client configured, a quota failure during diagram
generation does not produce the fixed fallback diagram. -/
theorem c6_counterexample :
    generate_mermaid true "Triage" ["Risk Stratification"] "Disposition"
        (.error "Error code: 429 - insufficient_quota")
      ≠ "graph TD; A[No LLM]-->B[Manual]" := by
  decide

/-- C6 (corrected): a value is always assigned and nothing raises, but on a failed
assistant call with a client configured the mermaid field receives an error-derived
diagnostic, not a fixed fallback diagram: the web variants store the fence-stripped
string LLM error: followed by the exception text, and the CLI stores the fixed apology
sentence. The no-diagram placeholder graph is produced exactly when no client is
configured, for every call outcome. -/
theorem c6_amended :
    (∀ (entry : String) (nodes : List String) (exitPoint : String)
        (res : Except String String),
      generate_mermaid false entry nodes exitPoint res = "graph TD; A[No LLM]-->B[Manual]")
    ∧ generate_mermaid true "Triage" ["Risk Stratification"] "Disposition"
        (.error "Error code: 429 - insufficient_quota")
        = "LLM error: Error code: 429 - insufficient_quota"
    ∧ ∀ (entry nodes endpoints err : String),
        draft_flowchart true entry nodes endpoints (.error err)
          = "I couldn\x27t process that right now." := by
  refine ⟨fun _ _ _ _ => rfl, by decide, fun _ _ _ _ => rfl⟩

/-- C7 counterexample: the answer No also resolves the status to ready, although it is
not the string no, so ready does not hold exactly at the answer no. -/
theorem c7_counterexample :
    phase_4_status "No" = "Ready for Go-Live" ∧ ("No" : String) ≠ "no" := by
  exact ⟨by decide, by decide⟩

/-- C7 (corrected): the status resolves to ready exactly when the lowered answer
equals no (case-insensitive, without trimming), and to needs-redesign for every other
answer. -/
theorem c7_amended : ∀ feedback : String,
    (phase_4_status feedback = "Ready for Go-Live" ↔ pyLower feedback = "no")
    ∧ (pyLower feedback ≠ "no" →
        phase_4_status feedback = "Requires Redesign (Too much friction)") := by
  intro f
  unfold phase_4_status
  by_cases h : pyLower f = "no"
  · simp [h]
  · simp [h]

/-- C7 witness: a concrete non-no answer resolves to needs-redesign. -/
theorem c7_witness :
    phase_4_status "Maybe" = "Requires Redesign (Too much friction)" :=
  (c7_amended "Maybe").2 (by decide)

/-- C8: whenever the selection input is not a digit string denoting an index between
one and the number of search results, the raw input string itself is recorded as the
citation, with no re-prompt and no error. -/
theorem c8 : ∀ (results : List String) (sel : String),
    ¬ (pyIsDigit sel = true ∧ 1 ≤ pyStrToNat sel ∧ pyStrToNat sel ≤ results.length) →
    cli_select_citation results sel = sel := by
  intro results sel h
  unfold cli_select_citation
  rw [if_neg h]

/-- C8 witness: a manual free-text selection against a one-result list is recorded
verbatim. -/
theorem c8_witness :
    cli_select_citation ["Doe J et al. (2021). Chest pain triage. Journal."]
        "manual Smith 2020"
      = "manual Smith 2020" :=
  c8 ["Doe J et al. (2021). Chest pain triage. Journal."] "manual Smith 2020" (by decide)

/-- C9: a raised exception during the PubMed fetch makes search_pubmed return the
non-empty one-element list holding the diagnostic error string; the automated phase-2
step therefore takes that diagnostic as the first result and records it verbatim as
the evidence citation, yielding exactly the item a successful search with that string
as its first hit would yield. -/
theorem c9 : ∀ e point : String,
    search_pubmed (.error e) = ["Error fetching PubMed data: " ++ e]
    ∧ (search_pubmed (.error e)).length = 1
    ∧ auto_phase2_item point (search_pubmed (.error e))
        = { point := point, citation := "Error fetching PubMed data: " ++ e,
            verification := "Auto-imported" }
    ∧ auto_phase2_item point (search_pubmed (.error e))
        = auto_phase2_item point (search_pubmed (.ok ["Error fetching PubMed data: " ++ e])) :=
  fun _ _ => ⟨rfl, rfl, rfl, rfl⟩

/-- C10: with no OpenAI client configured, ask_assistant returns exactly the no-key
string and generate_mermaid returns exactly the fixed placeholder graph, for every
prompt, context, entry, node list and exit point, and independently of the call
oracle, which is never consulted. -/
theorem c10 : ∀ (prompt context : String) (res : Except String String)
    (entry : String) (nodes : List String) (exitPoint : String),
    ask_assistant false prompt context res = "Analysis unavailable (No Key)"
    ∧ generate_mermaid false entry nodes exitPoint res = "graph TD; A[No LLM]-->B[Manual]" :=
  fun _ _ _ _ _ _ => ⟨rfl, rfl⟩

end CarePathIQ
